import Mathlib

/-!
Verification of the Attendance Tracker backend (files `std_db.py` and
`attendance_api.py`).

The development is a shallow embedding of the data-access layer and the
HTTP request handlers:

* the MySQL store is modelled as a `DB` value: a list of student rows, a
  list of attendance rows, and a `connected` flag standing for whether
  `pymysql.connect` succeeds (`connect_db` returns a connection object or
  `None`);
* every method of `AttendanceSystem` (std_db.py) becomes a function in
  namespace `StdDb`, returning `Except DbError _` when the Python method
  can raise (store-level constraint violations included, modelling MySQL
  in its default strict mode);
* every Flask handler of attendance_api.py becomes a function in
  namespace `Api`, returning the HTTP status code, the JSON payload shape
  it serialises, and the resulting store state;
* Python's `datetime.strptime(s, "%Y-%m-%d").date()` becomes `parseDate`.
-/

/-- Calendar date, the value produced by `datetime.date(year, month, day)`. -/
structure DateT where
  year : Nat
  month : Nat
  day : Nat
deriving DecidableEq, Repr

/-- Gregorian leap-year rule, as used by `datetime.date` validity checks. -/
def isLeap (y : Nat) : Bool :=
  (y % 4 = 0 && y % 100 ≠ 0) || y % 400 = 0

/-- Number of days of month `m` in year `y` (used by `datetime.date` to
validate the day component). -/
def daysInMonth (y m : Nat) : Nat :=
  if m = 2 then (if isLeap y then 29 else 28)
  else if m = 4 ∨ m = 6 ∨ m = 9 ∨ m = 11 then 30
  else 31

/-- Decimal digit test on a character. -/
def isDigitChar (c : Char) : Bool :=
  '0' ≤ c && c ≤ '9'

/-- Numeric value of a list of decimal digit characters. -/
def natOfDigits (cs : List Char) : Nat :=
  cs.foldl (fun acc c => acc * 10 + (c.toNat - 48)) 0

/-- Splits a character list on the character `-`, keeping empty pieces,
like Python's `str.split("-")`. -/
def splitOnDash : List Char → List (List Char)
  | [] => [[]]
  | c :: rest =>
    let r := splitOnDash rest
    if c = '-' then [] :: r
    else
      match r with
      | [] => [[c]]
      | h :: t => (c :: h) :: t

/-- Embeds `datetime.strptime(s, "%Y-%m-%d").date()`: `%Y` is exactly four
digits, `%m` and `%d` are one or two digits, the whole string must be
consumed, and the resulting triple must be a valid calendar date (so
Python also accepts non-zero-padded forms such as `2024-1-1`).
Returns `none` exactly when the Python call raises `ValueError`. -/
def parseDate (s : String) : Option DateT :=
  match splitOnDash s.data with
  | [ys, ms, ds] =>
    if ys.length = 4 ∧ ys.all isDigitChar
        ∧ 1 ≤ ms.length ∧ ms.length ≤ 2 ∧ ms.all isDigitChar
        ∧ 1 ≤ ds.length ∧ ds.length ≤ 2 ∧ ds.all isDigitChar then
      let y := natOfDigits ys
      let m := natOfDigits ms
      let d := natOfDigits ds
      if 1 ≤ y ∧ 1 ≤ m ∧ m ≤ 12 ∧ 1 ≤ d ∧ d ≤ daysInMonth y m then
        some ⟨y, m, d⟩
      else none
    else none
  | _ => none

namespace StdDb

/-- Class `Student` of std_db.py. Fields hold `Option String` because the
API layer constructs a `Student` from `data.get(...)`, which yields
Python `None` (here `none`) when the key is absent; `none` is sent to the
store as SQL `NULL`. The Python defaults are empty strings. -/
structure Student where
  name : Option String := some ""
  student_class : Option String := some ""
deriving DecidableEq, Repr

/-- Row of the `students` table: `id INT PRIMARY KEY, name VARCHAR NOT
NULL, class VARCHAR NOT NULL`. -/
structure StudentRow where
  id : Int
  name : String
  sclass : String
deriving DecidableEq, Repr

/-- Row of the `attendance` table: `student_id INT NOT NULL, date DATE NOT
NULL, status ENUM('Present','Absent') NOT NULL, FOREIGN KEY (student_id)
REFERENCES students(id), PRIMARY KEY (student_id, date)`. -/
structure AttRow where
  student_id : Int
  date : DateT
  status : String
deriving DecidableEq, Repr

/-- State of the MySQL store. `connected` stands for whether
`connect_db` succeeds (it returns a connection object, or `None` after
printing the error). -/
structure DB where
  connected : Bool
  students : List StudentRow
  attendance : List AttRow
deriving DecidableEq, Repr

/-- Errors raised inside std_db.py methods, or by MySQL itself (modelled
in its default strict mode). Every one of them reaches the API layer as a
Python exception. -/
inductive DbError where
  /-- Exception "Failed to connect to database", or the `AttributeError`
  from calling `.cursor()` on `None` in the methods that skip the check. -/
  | connectFailed
  /-- Exception "Student ID is required" in `add_student`. -/
  | studentIdRequired
  /-- Exception "Student with ID ... already exists" in `add_student`. -/
  | duplicateStudent
  /-- Exception "Student with ID ... not found" in `mark_attendance`. -/
  | studentNotFound
  /-- Exception "Attendance already marked ..." in `mark_attendance`. -/
  | attendanceConflict
  /-- MySQL error 1048: a NOT NULL column receives NULL. -/
  | columnNull
  /-- MySQL error 1265: value outside the ENUM('Present','Absent'). -/
  | badEnum
  /-- MySQL error 1451: deleting a parent row still referenced by the
  `attendance` foreign key. -/
  | fkViolation
deriving DecidableEq, Repr

/-- Predicate used by the `WHERE id = sid` lookups on `students`. -/
def studentMatch (sid : Int) (r : StudentRow) : Bool :=
  r.id == sid

/-- Predicate used by the `WHERE student_id = sid AND date = d` lookups
on `attendance`. -/
def attMatch (sid : Int) (d : DateT) (a : AttRow) : Bool :=
  a.student_id == sid && a.date == d

/-- Method `get_student`: returns `None` when the connection fails, the
selected row or `None` otherwise. -/
def get_student (db : DB) (sid : Int) : Option StudentRow :=
  if db.connected then db.students.find? (studentMatch sid) else none

/-- Method `list_students`: returns `[]` when the connection fails, all
rows otherwise. -/
def list_students (db : DB) : List StudentRow :=
  if db.connected then db.students else []

/-- Method `add_student`: raises when the connection fails, when no id is
supplied, or when the id already exists (explicit pre-check); otherwise
INSERTs the row (NOT NULL columns reject a `None` field) and returns the
id. -/
def add_student (db : DB) (student : Student) (student_id : Option Int) :
    Except DbError (DB × Int) :=
  if !db.connected then .error .connectFailed
  else
    match student_id with
    | none => .error .studentIdRequired
    | some sid =>
      if (db.students.find? (studentMatch sid)).isSome then
        .error .duplicateStudent
      else
        match student.name, student.student_class with
        | some n, some c =>
          .ok ({ db with students := db.students ++ [⟨sid, n, c⟩] }, sid)
        | _, _ => .error .columnNull

/-- Method `update_student`: `UPDATE students SET name=%s, class=%s WHERE
id=%s`. A full overwrite of both columns; a `None` field is SQL NULL and
is rejected by the NOT NULL constraint. Matching zero rows succeeds
silently. -/
def update_student (db : DB) (sid : Int) (new_data : Student) :
    Except DbError DB :=
  if !db.connected then .error .connectFailed
  else if (db.students.find? (studentMatch sid)).isNone then .ok db
  else
    match new_data.name, new_data.student_class with
    | some n, some c =>
      .ok { db with students := db.students.map (fun r =>
        if studentMatch sid r then { r with name := n, sclass := c } else r) }
    | _, _ => .error .columnNull

/-- Statement `DELETE FROM attendance WHERE student_id=%s` (first
statement of `delete_student`). -/
def deleteAttendanceRows (db : DB) (sid : Int) : DB :=
  { db with attendance := db.attendance.filter (fun a => !(a.student_id == sid)) }

/-- Statement `DELETE FROM students WHERE id=%s` (second statement of
`delete_student`). The foreign key of `attendance` makes MySQL reject the
deletion while a child row still references the student. -/
def deleteStudentRow (db : DB) (sid : Int) : Except DbError DB :=
  if (db.attendance.find? (fun a => a.student_id == sid)).isSome then
    .error .fkViolation
  else
    .ok { db with students := db.students.filter (fun r => !(r.id == sid)) }

/-- Method `delete_student`: deletes the attendance rows first, then the
student row, in that order. -/
def delete_student (db : DB) (sid : Int) : Except DbError DB :=
  if !db.connected then .error .connectFailed
  else deleteStudentRow (deleteAttendanceRows db sid) sid

/-- Method `mark_attendance`: raises if the connection fails; checks the
student exists (pre-check), then that no record exists for the pair
(pre-check), then INSERTs — at which point the ENUM constraint rejects a
status outside the enum. Returns `(student_id, at_date)` on success. -/
def mark_attendance (db : DB) (student_id : Int) (at_date : DateT)
    (status : String) : Except DbError (DB × (Int × DateT)) :=
  if !db.connected then .error .connectFailed
  else if (db.students.find? (studentMatch student_id)).isNone then
    .error .studentNotFound
  else if (db.attendance.find? (attMatch student_id at_date)).isSome then
    .error .attendanceConflict
  else if status = "Present" ∨ status = "Absent" then
    .ok ({ db with attendance := db.attendance ++ [⟨student_id, at_date, status⟩] },
      (student_id, at_date))
  else .error .badEnum

/-- Method `update_attendance`: `UPDATE attendance SET status=%s WHERE
student_id=%s AND date=%s`. With no matching row the statement succeeds
changing nothing; with a matching row, strict-mode MySQL rejects NULL
(1048) and values outside the enum (1265) before any change. -/
def update_attendance (db : DB) (student_id : Int) (at_date : DateT)
    (new_status : Option String) : Except DbError DB :=
  if !db.connected then .error .connectFailed
  else if (db.attendance.find? (attMatch student_id at_date)).isNone then .ok db
  else
    match new_status with
    | none => .error .columnNull
    | some st =>
      if st = "Present" ∨ st = "Absent" then
        .ok { db with attendance := db.attendance.map (fun a =>
          if attMatch student_id at_date a then { a with status := st } else a) }
      else .error .badEnum

/-- Method `delete_attendance`: `DELETE FROM attendance WHERE
student_id=%s AND date=%s`. -/
def delete_attendance (db : DB) (student_id : Int) (at_date : DateT) :
    Except DbError DB :=
  if !db.connected then .error .connectFailed
  else .ok { db with attendance := db.attendance.filter (fun a =>
    !(attMatch student_id at_date a)) }

/-- Method `get_attendance`: no connection check in the source (a failed
connection raises `AttributeError` on `conn.cursor()`); otherwise returns
the selected row or `None`. -/
def get_attendance (db : DB) (student_id : Int) (at_date : DateT) :
    Except DbError (Option AttRow) :=
  if !db.connected then .error .connectFailed
  else .ok (db.attendance.find? (attMatch student_id at_date))

/-- Method `list_attendance_by_student`: `SELECT ... FROM attendance WHERE
student_id=%s`. No connection check in the source. -/
def list_attendance_by_student (db : DB) (student_id : Int) :
    Except DbError (List AttRow) :=
  if !db.connected then .error .connectFailed
  else .ok (db.attendance.filter (fun a => a.student_id == student_id))

end StdDb

namespace Api

open StdDb

/-- JSON body of `POST /students`. A `none` field is an absent key (the
handler returns 400 "Missing required field"). The `id` field is kept as
the value of `int(data['id'])` when that call succeeds; a request whose
id is absent is modelled with `id := none` (an unparseable id takes the
same 400 path one line later). -/
structure CreateStudentReq where
  id : Option Int
  name : Option String
  sclass : Option String
deriving DecidableEq, Repr

/-- JSON body of `PUT /students/.` — both fields read with `data.get`,
so an absent key becomes Python `None`. -/
structure UpdateStudentReq where
  name : Option String
  sclass : Option String
deriving DecidableEq, Repr

/-- JSON body of `POST /attendance`. `student_id` as in
`CreateStudentReq.id`; `date` and `status` are the raw JSON strings. -/
structure MarkReq where
  student_id : Option Int
  date : Option String
  status : Option String
deriving DecidableEq, Repr

/-- JSON body of `PUT /attendance/./.` — `status` read with `data.get`. -/
structure UpdateAttReq where
  status : Option String
deriving DecidableEq, Repr

/-- Handler `list_students` (`GET /students`): always 200 with the rows
serialised as (id, name, class) triples. -/
def list_students (db : DB) : Nat × List (Int × String × String) :=
  (200, (StdDb.list_students db).map (fun r => (r.id, r.name, r.sclass)))

/-- Handler `create_student` (`POST /students`): 400 for a missing body or
a missing/non-integer field; `add_student` exceptions become 400; on
success the stored row is re-read and returned with 201. -/
def create_student (db : DB) (body : Option CreateStudentReq) :
    (Nat × Option (Int × String × String)) × DB :=
  match body with
  | none => ((400, none), db)
  | some data =>
    match data.id, data.name, data.sclass with
    | some sid, some nm, some cl =>
      match add_student db ⟨some nm, some cl⟩ (some sid) with
      | .error _ => ((400, none), db)
      | .ok (db1, sid1) =>
        match StdDb.get_student db1 sid1 with
        | some row => ((201, some (row.id, row.name, row.sclass)), db1)
        | none => ((400, none), db1)
    | _, _, _ => ((400, none), db)

/-- Handler `read_student` (`GET /students/.`): 404 when `get_student`
yields nothing (row absent, or connection failure), else 200 with the
row. -/
def read_student (db : DB) (sid : Int) : Nat × Option (Int × String × String) :=
  match StdDb.get_student db sid with
  | none => (404, none)
  | some row => (200, some (row.id, row.name, row.sclass))

/-- Handler `update_student` (`PUT /students/.`): 404 when the student is
absent; otherwise builds `Student(name=data.get('name'),
student_class=data.get('class'))` and calls the full-overwrite
`update_student`; any exception (missing body, NULL column, connection
loss) becomes 400; on success the row is re-read and returned with
200. -/
def update_student (db : DB) (sid : Int) (body : Option UpdateStudentReq) :
    (Nat × Option (Int × String × String)) × DB :=
  match StdDb.get_student db sid with
  | none => ((404, none), db)
  | some _ =>
    match body with
    | none => ((400, none), db)
    | some data =>
      match StdDb.update_student db sid ⟨data.name, data.sclass⟩ with
      | .error _ => ((400, none), db)
      | .ok db1 =>
        match StdDb.get_student db1 sid with
        | some row => ((200, some (row.id, row.name, row.sclass)), db1)
        | none => ((400, none), db1)

/-- Handler `delete_student` (`DELETE /students/.`): 404 when the student
is absent, otherwise the cascading `delete_student` then 200; an
exception becomes 500 with the store rolled back. -/
def delete_student (db : DB) (sid : Int) : Nat × DB :=
  match StdDb.get_student db sid with
  | none => (404, db)
  | some _ =>
    match StdDb.delete_student db sid with
    | .error _ => (500, db)
    | .ok db1 => (200, db1)

/-- Handler `mark_attendance` (`POST /attendance`): 400 for missing
body/fields, non-integer id, malformed date (ValueError from `strptime`)
or a status outside the enum; 404 when the student does not exist; store
exceptions (the Conflict pre-check included) become 400; on success the
record is re-read and returned with 201. The source's `if not result`
branch is unreachable (`mark_attendance` returns a non-empty tuple) and
is not modelled. -/
def mark_attendance (db : DB) (body : Option MarkReq) :
    (Nat × Option (Int × DateT × String)) × DB :=
  match body with
  | none => ((400, none), db)
  | some data =>
    match data.student_id, data.date, data.status with
    | some sid, some dateStr, some status =>
      match parseDate dateStr with
      | none => ((400, none), db)
      | some d =>
        if status = "Present" ∨ status = "Absent" then
          match StdDb.get_student db sid with
          | none => ((404, none), db)
          | some _ =>
            match StdDb.mark_attendance db sid d status with
            | .error _ => ((400, none), db)
            | .ok (db1, _) =>
              match StdDb.get_attendance db1 sid d with
              | .ok (some row) => ((201, some (row.student_id, row.date, row.status)), db1)
              | _ => ((400, none), db1)
        else ((400, none), db)
    | _, _, _ => ((400, none), db)

/-- Handler `get_attendance` (`GET /attendance/./.`): 400 for a malformed
date, 404 when no record exists, 500 for a store exception, else 200 with
the row. -/
def get_attendance (db : DB) (student_id : Int) (date : String) :
    Nat × Option (Int × DateT × String) :=
  match parseDate date with
  | none => (400, none)
  | some d =>
    match StdDb.get_attendance db student_id d with
    | .error _ => (500, none)
    | .ok none => (404, none)
    | .ok (some row) => (200, some (row.student_id, row.date, row.status))

/-- Handler `list_attendance_for_student` (`GET /attendance/student/.`):
200 with (date, status) pairs; a store exception becomes 500 (payload
empty here, the source serialises an error object). -/
def list_attendance_for_student (db : DB) (student_id : Int) :
    Nat × List (DateT × String) :=
  match StdDb.list_attendance_by_student db student_id with
  | .error _ => (500, [])
  | .ok rows => (200, rows.map (fun r => (r.date, r.status)))

/-- Handler `update_attendance` (`PUT /attendance/./.`): 400 for a
malformed date; 404 when no record exists for the pair; then
`data.get('status')` is passed to the store UPDATE, whose exceptions
(NULL, bad enum, connection loss — and a missing body) become 400; on
success the row is re-read and returned with 200. -/
def update_attendance (db : DB) (student_id : Int) (date : String)
    (body : Option UpdateAttReq) :
    (Nat × Option (Int × DateT × String)) × DB :=
  match parseDate date with
  | none => ((400, none), db)
  | some d =>
    match StdDb.get_attendance db student_id d with
    | .error _ => ((400, none), db)
    | .ok none => ((404, none), db)
    | .ok (some _) =>
      match body with
      | none => ((400, none), db)
      | some data =>
        match StdDb.update_attendance db student_id d data.status with
        | .error _ => ((400, none), db)
        | .ok db1 =>
          match StdDb.get_attendance db1 student_id d with
          | .ok (some row) => ((200, some (row.student_id, row.date, row.status)), db1)
          | _ => ((400, none), db1)

/-- Handler `delete_attendance` (`DELETE /attendance/./.`): 400 for a
malformed date, 404 when no record exists, 500 for a store exception,
else deletes the row and returns 200. -/
def delete_attendance (db : DB) (student_id : Int) (date : String) :
    Nat × DB :=
  match parseDate date with
  | none => (400, db)
  | some d =>
    match StdDb.get_attendance db student_id d with
    | .error _ => (500, db)
    | .ok none => (404, db)
    | .ok (some _) =>
      match StdDb.delete_attendance db student_id d with
      | .error _ => (500, db)
      | .ok db1 => (200, db1)

end Api

/-! Helper lemmas shared by the claim theorems. -/

theorem find?_append_singleton {α : Type} (l : List α) (p : α → Bool) (x : α)
    (h : l.find? p = none) (hx : p x = true) : (l ++ [x]).find? p = some x := by
  simp [List.find?_append, h, List.find?_cons, hx]

theorem studentMatch_self (sid : Int) (nm cl : String) :
    StdDb.studentMatch sid ⟨sid, nm, cl⟩ = true := by
  simp [StdDb.studentMatch]

theorem attMatch_self (sid : Int) (d : DateT) (st : String) :
    StdDb.attMatch sid d ⟨sid, d, st⟩ = true := by
  simp [StdDb.attMatch]

/-- Shared success lemma for `POST /students`: with the store reachable
and the id free, the handler inserts the row and echoes the stored
triple with 201. -/
theorem create_student_ok (db : StdDb.DB) (sid : Int) (nm cl : String)
    (hconn : db.connected = true)
    (habs : db.students.find? (StdDb.studentMatch sid) = none) :
    Api.create_student db (some ⟨some sid, some nm, some cl⟩) =
      ((201, some (sid, nm, cl)), { db with students := db.students ++ [⟨sid, nm, cl⟩] }) := by
  have hfind :
      ((db.students ++ [⟨sid, nm, cl⟩] : List StdDb.StudentRow).find?
        (StdDb.studentMatch sid)) = some ⟨sid, nm, cl⟩ :=
    find?_append_singleton _ _ _ habs (studentMatch_self sid nm cl)
  simp [Api.create_student, StdDb.add_student, StdDb.get_student, hconn, habs, hfind]

/-! Claim theorems. -/

/-- C4: for every valid triple (id, name, class) whose id is not already
present in the students table, creating the student succeeds and a
subsequent get returns a student whose id, name and class equal the
triple supplied at creation. -/
theorem create_then_get_roundtrip (db : StdDb.DB) (sid : Int) (nm cl : String)
    (hconn : db.connected = true)
    (habs : db.students.find? (StdDb.studentMatch sid) = none) :
    Api.create_student db (some ⟨some sid, some nm, some cl⟩) =
      ((201, some (sid, nm, cl)), { db with students := db.students ++ [⟨sid, nm, cl⟩] })
    ∧ Api.read_student { db with students := db.students ++ [⟨sid, nm, cl⟩] } sid =
      (200, some (sid, nm, cl)) := by
  have hfind :
      ((db.students ++ [⟨sid, nm, cl⟩] : List StdDb.StudentRow).find?
        (StdDb.studentMatch sid)) = some ⟨sid, nm, cl⟩ :=
    find?_append_singleton _ _ _ habs (studentMatch_self sid nm cl)
  exact ⟨create_student_ok db sid nm cl hconn habs,
    by simp [Api.read_student, StdDb.get_student, hconn, hfind]⟩

/-- C4 witness: creating student (1, "Ann", "5A") in a connected empty
store, then reading id 1, returns the same triple both times. -/
theorem create_then_get_roundtrip_witness :
    (⟨true, [], []⟩ : StdDb.DB).connected = true
    ∧ (⟨true, [], []⟩ : StdDb.DB).students.find? (StdDb.studentMatch 1) = none
    ∧ Api.create_student ⟨true, [], []⟩ (some ⟨some 1, some "Ann", some "5A"⟩) =
        ((201, some (1, "Ann", "5A")), ⟨true, [⟨1, "Ann", "5A"⟩], []⟩)
    ∧ Api.read_student ⟨true, [⟨1, "Ann", "5A"⟩], []⟩ 1 = (200, some (1, "Ann", "5A")) :=
  ⟨rfl, rfl,
    (create_then_get_roundtrip ⟨true, [], []⟩ 1 "Ann" "5A" rfl rfl).1,
    (create_then_get_roundtrip ⟨true, [], []⟩ 1 "Ann" "5A" rfl rfl).2⟩

/-- C5: for every id already present and any name and class, creation
fails with the duplicate-id exception, the handler answers 400, and the
store (the existing row included) is unchanged. -/
theorem create_duplicate_rejected (db : StdDb.DB) (sid : Int) (nm cl : String)
    (hconn : db.connected = true)
    (hex : (db.students.find? (StdDb.studentMatch sid)).isSome = true) :
    StdDb.add_student db ⟨some nm, some cl⟩ (some sid) = .error .duplicateStudent
    ∧ Api.create_student db (some ⟨some sid, some nm, some cl⟩) = ((400, none), db) := by
  constructor
  · simp [StdDb.add_student, hconn, hex]
  · simp [Api.create_student, StdDb.add_student, hconn, hex]

/-- C5 witness: re-creating id 1 with a different name and class yields
the duplicate error and 400, leaving row (1, "Ann", "5A") untouched. -/
theorem create_duplicate_rejected_witness :
    (⟨true, [⟨1, "Ann", "5A"⟩], []⟩ : StdDb.DB).connected = true
    ∧ ((⟨true, [⟨1, "Ann", "5A"⟩], []⟩ : StdDb.DB).students.find?
        (StdDb.studentMatch 1)).isSome = true
    ∧ StdDb.add_student ⟨true, [⟨1, "Ann", "5A"⟩], []⟩ ⟨some "Bob", some "6B"⟩ (some 1) =
        .error .duplicateStudent
    ∧ Api.create_student ⟨true, [⟨1, "Ann", "5A"⟩], []⟩
        (some ⟨some 1, some "Bob", some "6B"⟩) =
        ((400, none), ⟨true, [⟨1, "Ann", "5A"⟩], []⟩) :=
  ⟨rfl, rfl,
    (create_duplicate_rejected ⟨true, [⟨1, "Ann", "5A"⟩], []⟩ 1 "Bob" "6B" rfl rfl).1,
    (create_duplicate_rejected ⟨true, [⟨1, "Ann", "5A"⟩], []⟩ 1 "Bob" "6B" rfl rfl).2⟩

/-- C6 counterexample: the handlers never check for empty strings — only
field presence is validated — so creating student (1, "", "5A") in a
connected empty store succeeds with 201 and inserts the row, where the
claim requires InvalidInput and no insertion. -/
theorem create_empty_name_not_rejected :
    Api.create_student ⟨true, [], []⟩ (some ⟨some 1, some "", some "5A"⟩) =
      ((201, some (1, "", "5A")), ⟨true, [⟨1, "", "5A"⟩], []⟩) := by decide

/-- C6 amended: a creation request whose name or class is the empty
string is not rejected: provided the id is free and the store reachable,
the student is inserted with the empty string stored, and the handler
answers 201. -/
theorem create_empty_fields_inserted (db : StdDb.DB) (sid : Int) (nm cl : String)
    (hconn : db.connected = true)
    (habs : db.students.find? (StdDb.studentMatch sid) = none)
    (hempty : nm = "" ∨ cl = "") :
    Api.create_student db (some ⟨some sid, some nm, some cl⟩) =
      ((201, some (sid, nm, cl)), { db with students := db.students ++ [⟨sid, nm, cl⟩] }) :=
  create_student_ok db sid nm cl hconn habs

/-- C6 amended witness: creating (1, "", "5A") in a connected empty store
succeeds and stores the empty name. -/
theorem create_empty_fields_inserted_witness :
    (⟨true, [], []⟩ : StdDb.DB).connected = true
    ∧ (⟨true, [], []⟩ : StdDb.DB).students.find? (StdDb.studentMatch 1) = none
    ∧ ("" = "" ∨ "5A" = "")
    ∧ Api.create_student ⟨true, [], []⟩ (some ⟨some 1, some "", some "5A"⟩) =
        ((201, some (1, "", "5A")), ⟨true, [⟨1, "", "5A"⟩], []⟩) :=
  ⟨rfl, rfl, Or.inl rfl,
    create_empty_fields_inserted ⟨true, [], []⟩ 1 "" "5A" rfl rfl (Or.inl rfl)⟩

/-- C10: in every state whose connection attempt fails, `get_student`
returns `None` and `list_students` returns `[]` instead of raising, so
`GET /students/{id}` answers 404 (as for an absent student) and
`GET /students` answers 200 with an empty array (as for an empty table),
never 500. -/
theorem disconnected_reads_look_absent (db : StdDb.DB)
    (hdis : db.connected = false) :
    (∀ sid : Int, StdDb.get_student db sid = none)
    ∧ StdDb.list_students db = []
    ∧ (∀ sid : Int, Api.read_student db sid = (404, none))
    ∧ Api.list_students db = (200, []) := by
  refine ⟨fun sid => ?_, ?_, fun sid => ?_, ?_⟩ <;>
    simp [StdDb.get_student, StdDb.list_students, Api.read_student,
      Api.list_students, hdis]

/-- C10 witness: with a student row present but the connection down,
reads report absence: get 404, list empty 200. -/
theorem disconnected_reads_look_absent_witness :
    (⟨false, [⟨1, "Ann", "5A"⟩], []⟩ : StdDb.DB).connected = false
    ∧ StdDb.get_student ⟨false, [⟨1, "Ann", "5A"⟩], []⟩ 1 = none
    ∧ StdDb.list_students ⟨false, [⟨1, "Ann", "5A"⟩], []⟩ = []
    ∧ Api.read_student ⟨false, [⟨1, "Ann", "5A"⟩], []⟩ 1 = (404, none)
    ∧ Api.list_students ⟨false, [⟨1, "Ann", "5A"⟩], []⟩ = (200, []) :=
  ⟨rfl,
    (disconnected_reads_look_absent ⟨false, [⟨1, "Ann", "5A"⟩], []⟩ rfl).1 1,
    (disconnected_reads_look_absent ⟨false, [⟨1, "Ann", "5A"⟩], []⟩ rfl).2.1,
    (disconnected_reads_look_absent ⟨false, [⟨1, "Ann", "5A"⟩], []⟩ rfl).2.2.1 1,
    (disconnected_reads_look_absent ⟨false, [⟨1, "Ann", "5A"⟩], []⟩ rfl).2.2.2⟩

/-- C3: for every student_id with no row in the students table, the
repository `mark_attendance` fails with the not-found exception for
every date and every status — so nothing is ever inserted — and the
handler maps the failure to 404 with the store unchanged (the handler
reaches its own existence check for every well-formed date and valid
status). -/
theorem mark_missing_student_not_found (db : StdDb.DB) (sid : Int)
    (hconn : db.connected = true)
    (habs : db.students.find? (StdDb.studentMatch sid) = none) :
    (∀ (d : DateT) (st : String),
        StdDb.mark_attendance db sid d st = .error .studentNotFound)
    ∧ (∀ (ds : String) (d : DateT) (st : String), parseDate ds = some d →
        (st = "Present" ∨ st = "Absent") →
        Api.mark_attendance db (some ⟨some sid, some ds, some st⟩) = ((404, none), db)) := by
  constructor
  · intro d st
    simp [StdDb.mark_attendance, hconn, habs]
  · intro ds d st hds hst
    simp [Api.mark_attendance, StdDb.get_student, hds, hst, hconn, habs]

/-- C3 witness: marking attendance for absent student 1 on 2024-01-10
with status Present fails with the not-found error at the repository and
404 at the handler, leaving the empty store empty. -/
theorem mark_missing_student_not_found_witness :
    (⟨true, [], []⟩ : StdDb.DB).connected = true
    ∧ (⟨true, [], []⟩ : StdDb.DB).students.find? (StdDb.studentMatch 1) = none
    ∧ StdDb.mark_attendance ⟨true, [], []⟩ 1 ⟨2024, 1, 10⟩ "Present" =
        .error .studentNotFound
    ∧ Api.mark_attendance ⟨true, [], []⟩
        (some ⟨some 1, some "2024-01-10", some "Present"⟩) =
        ((404, none), ⟨true, [], []⟩) :=
  ⟨rfl, rfl,
    (mark_missing_student_not_found ⟨true, [], []⟩ 1 rfl rfl).1 ⟨2024, 1, 10⟩ "Present",
    (mark_missing_student_not_found ⟨true, [], []⟩ 1 rfl rfl).2 "2024-01-10"
      ⟨2024, 1, 10⟩ "Present" (by decide) (Or.inl rfl)⟩

/-- C7: for every date string the `strptime` embedding rejects, each of
the four date-taking handlers answers 400 for every store state and
leaves it untouched — the response does not depend on the store at all,
since the `ValueError` is raised before any store access. -/
theorem malformed_date_rejected (ds : String) (hbad : parseDate ds = none) :
    (∀ (db : StdDb.DB) (sid : Int) (st : Option String),
        Api.mark_attendance db (some ⟨some sid, some ds, st⟩) = ((400, none), db))
    ∧ (∀ (db : StdDb.DB) (sid : Int), Api.get_attendance db sid ds = (400, none))
    ∧ (∀ (db : StdDb.DB) (sid : Int) (body : Option Api.UpdateAttReq),
        Api.update_attendance db sid ds body = ((400, none), db))
    ∧ (∀ (db : StdDb.DB) (sid : Int), Api.delete_attendance db sid ds = (400, db)) := by
  refine ⟨fun db sid st => ?_, fun db sid => ?_, fun db sid body => ?_, fun db sid => ?_⟩
  · cases st <;> simp [Api.mark_attendance, hbad]
  · simp [Api.get_attendance, hbad]
  · simp [Api.update_attendance, hbad]
  · simp [Api.delete_attendance, hbad]

/-- C7 witness: the malformed strings "2024/01/01" and "not-a-date" fail
to parse, and each handler answers 400 on "2024/01/01" without touching
a store that holds a student and a record. -/
theorem malformed_date_rejected_witness :
    parseDate "2024/01/01" = none
    ∧ parseDate "not-a-date" = none
    ∧ Api.mark_attendance ⟨true, [⟨1, "Ann", "5A"⟩], [⟨1, ⟨2024, 1, 10⟩, "Present"⟩]⟩
        (some ⟨some 1, some "2024/01/01", some "Present"⟩) =
        ((400, none), ⟨true, [⟨1, "Ann", "5A"⟩], [⟨1, ⟨2024, 1, 10⟩, "Present"⟩]⟩)
    ∧ Api.get_attendance ⟨true, [⟨1, "Ann", "5A"⟩], [⟨1, ⟨2024, 1, 10⟩, "Present"⟩]⟩
        1 "2024/01/01" = (400, none)
    ∧ Api.update_attendance ⟨true, [⟨1, "Ann", "5A"⟩], [⟨1, ⟨2024, 1, 10⟩, "Present"⟩]⟩
        1 "2024/01/01" (some ⟨some "Absent"⟩) =
        ((400, none), ⟨true, [⟨1, "Ann", "5A"⟩], [⟨1, ⟨2024, 1, 10⟩, "Present"⟩]⟩)
    ∧ Api.delete_attendance ⟨true, [⟨1, "Ann", "5A"⟩], [⟨1, ⟨2024, 1, 10⟩, "Present"⟩]⟩
        1 "2024/01/01" =
        (400, ⟨true, [⟨1, "Ann", "5A"⟩], [⟨1, ⟨2024, 1, 10⟩, "Present"⟩]⟩) :=
  ⟨by decide, by decide,
    (malformed_date_rejected "2024/01/01" (by decide)).1
      ⟨true, [⟨1, "Ann", "5A"⟩], [⟨1, ⟨2024, 1, 10⟩, "Present"⟩]⟩ 1 (some "Present"),
    (malformed_date_rejected "2024/01/01" (by decide)).2.1
      ⟨true, [⟨1, "Ann", "5A"⟩], [⟨1, ⟨2024, 1, 10⟩, "Present"⟩]⟩ 1,
    (malformed_date_rejected "2024/01/01" (by decide)).2.2.1
      ⟨true, [⟨1, "Ann", "5A"⟩], [⟨1, ⟨2024, 1, 10⟩, "Present"⟩]⟩ 1 (some ⟨some "Absent"⟩),
    (malformed_date_rejected "2024/01/01" (by decide)).2.2.2
      ⟨true, [⟨1, "Ann", "5A"⟩], [⟨1, ⟨2024, 1, 10⟩, "Present"⟩]⟩ 1⟩

/-- C1: in every state where the student exists and no record exists for
(student_id, date), marking twice with that pair yields 201 then 400, the
second repository call failing with the already-marked Conflict
exception; the state after both calls holds exactly one record for the
pair, carrying the status of the first call only. -/
theorem mark_twice_conflict (db : StdDb.DB) (sid : Int) (d : DateT)
    (ds s1 s2 : String)
    (hconn : db.connected = true)
    (hstu : (db.students.find? (StdDb.studentMatch sid)).isSome = true)
    (hatt : db.attendance.find? (StdDb.attMatch sid d) = none)
    (hds : parseDate ds = some d)
    (hs1 : s1 = "Present" ∨ s1 = "Absent")
    (hs2 : s2 = "Present" ∨ s2 = "Absent") :
    Api.mark_attendance db (some ⟨some sid, some ds, some s1⟩) =
      ((201, some (sid, d, s1)),
        { db with attendance := db.attendance ++ [⟨sid, d, s1⟩] })
    ∧ Api.mark_attendance { db with attendance := db.attendance ++ [⟨sid, d, s1⟩] }
        (some ⟨some sid, some ds, some s2⟩) =
      ((400, none), { db with attendance := db.attendance ++ [⟨sid, d, s1⟩] })
    ∧ StdDb.mark_attendance { db with attendance := db.attendance ++ [⟨sid, d, s1⟩] }
        sid d s2 = .error .attendanceConflict
    ∧ StdDb.get_attendance { db with attendance := db.attendance ++ [⟨sid, d, s1⟩] }
        sid d = .ok (some ⟨sid, d, s1⟩) := by
  have hfind :
      ((db.attendance ++ [⟨sid, d, s1⟩] : List StdDb.AttRow).find?
        (StdDb.attMatch sid d)) = some ⟨sid, d, s1⟩ :=
    find?_append_singleton _ _ _ hatt (attMatch_self sid d s1)
  obtain ⟨r, hr⟩ := Option.isSome_iff_exists.mp hstu
  refine ⟨?_, ?_, ?_, ?_⟩
  · simp [Api.mark_attendance, StdDb.mark_attendance, StdDb.get_student,
      StdDb.get_attendance, hconn, hr, hatt, hds, hs1, hfind]
  · simp [Api.mark_attendance, StdDb.mark_attendance, StdDb.get_student,
      hconn, hr, hds, hs2, hfind]
  · simp [StdDb.mark_attendance, hconn, hr, hfind]
  · simp [StdDb.get_attendance, hconn, hfind]

/-- C1 witness: student 1 present, no record for 2024-01-10; marking
Present then Absent yields 201 then 400 with the Conflict error, and the
stored status for the pair stays Present. -/
theorem mark_twice_conflict_witness :
    (⟨true, [⟨1, "Ann", "5A"⟩], []⟩ : StdDb.DB).connected = true
    ∧ ((⟨true, [⟨1, "Ann", "5A"⟩], []⟩ : StdDb.DB).students.find?
        (StdDb.studentMatch 1)).isSome = true
    ∧ (⟨true, [⟨1, "Ann", "5A"⟩], []⟩ : StdDb.DB).attendance.find?
        (StdDb.attMatch 1 ⟨2024, 1, 10⟩) = none
    ∧ parseDate "2024-01-10" = some ⟨2024, 1, 10⟩
    ∧ Api.mark_attendance ⟨true, [⟨1, "Ann", "5A"⟩], []⟩
        (some ⟨some 1, some "2024-01-10", some "Present"⟩) =
        ((201, some (1, ⟨2024, 1, 10⟩, "Present")),
          ⟨true, [⟨1, "Ann", "5A"⟩], [⟨1, ⟨2024, 1, 10⟩, "Present"⟩]⟩)
    ∧ Api.mark_attendance ⟨true, [⟨1, "Ann", "5A"⟩], [⟨1, ⟨2024, 1, 10⟩, "Present"⟩]⟩
        (some ⟨some 1, some "2024-01-10", some "Absent"⟩) =
        ((400, none), ⟨true, [⟨1, "Ann", "5A"⟩], [⟨1, ⟨2024, 1, 10⟩, "Present"⟩]⟩)
    ∧ StdDb.mark_attendance ⟨true, [⟨1, "Ann", "5A"⟩], [⟨1, ⟨2024, 1, 10⟩, "Present"⟩]⟩
        1 ⟨2024, 1, 10⟩ "Absent" = .error .attendanceConflict
    ∧ StdDb.get_attendance ⟨true, [⟨1, "Ann", "5A"⟩], [⟨1, ⟨2024, 1, 10⟩, "Present"⟩]⟩
        1 ⟨2024, 1, 10⟩ = .ok (some ⟨1, ⟨2024, 1, 10⟩, "Present"⟩) :=
  ⟨rfl, rfl, rfl, by decide,
    (mark_twice_conflict ⟨true, [⟨1, "Ann", "5A"⟩], []⟩ 1 ⟨2024, 1, 10⟩
      "2024-01-10" "Present" "Absent" rfl rfl rfl (by decide)
      (Or.inl rfl) (Or.inr rfl)).1,
    (mark_twice_conflict ⟨true, [⟨1, "Ann", "5A"⟩], []⟩ 1 ⟨2024, 1, 10⟩
      "2024-01-10" "Present" "Absent" rfl rfl rfl (by decide)
      (Or.inl rfl) (Or.inr rfl)).2.1,
    (mark_twice_conflict ⟨true, [⟨1, "Ann", "5A"⟩], []⟩ 1 ⟨2024, 1, 10⟩
      "2024-01-10" "Present" "Absent" rfl rfl rfl (by decide)
      (Or.inl rfl) (Or.inr rfl)).2.2.1,
    (mark_twice_conflict ⟨true, [⟨1, "Ann", "5A"⟩], []⟩ 1 ⟨2024, 1, 10⟩
      "2024-01-10" "Present" "Absent" rfl rfl rfl (by decide)
      (Or.inl rfl) (Or.inr rfl)).2.2.2⟩

/-- C2: for every existing student id, the delete handler answers 200;
the resulting state holds no attendance row for that id (all removed)
and no student row with that id; afterwards the per-student listing is
the empty sequence and every (id, date) lookup reports absence. The
first conjunct shows the statement order is forced: running the
student-row DELETE first, while a child row still references the id,
violates the foreign key — `delete_student` only succeeds because it
removes the attendance rows first. -/
theorem delete_student_cascades (db : StdDb.DB) (sid : Int) (r : StdDb.StudentRow)
    (hconn : db.connected = true)
    (hr : db.students.find? (StdDb.studentMatch sid) = some r) :
    ((db.attendance.find? (fun a => a.student_id == sid)).isSome = true →
        StdDb.deleteStudentRow db sid = .error .fkViolation)
    ∧ (Api.delete_student db sid).1 = 200
    ∧ (Api.delete_student db sid).2.attendance
        = db.attendance.filter (fun a => !(a.student_id == sid))
    ∧ (Api.delete_student db sid).2.students
        = db.students.filter (fun s => !(s.id == sid))
    ∧ Api.list_attendance_for_student (Api.delete_student db sid).2 sid = (200, [])
    ∧ ∀ d : DateT, StdDb.get_attendance (Api.delete_student db sid).2 sid d = .ok none := by
  have hnochild :
      ((db.attendance.filter (fun a => !(a.student_id == sid))).find?
        (fun a => a.student_id == sid)) = none := by
    rw [List.find?_eq_none]
    intro x hx
    simp only [List.mem_filter, Bool.not_eq_true'] at hx
    simp [hx.2]
  have hdel : Api.delete_student db sid =
      (200, { db with
        attendance := db.attendance.filter (fun a => !(a.student_id == sid)),
        students := db.students.filter (fun s => !(s.id == sid)) }) := by
    simp [Api.delete_student, StdDb.delete_student, StdDb.deleteStudentRow,
      StdDb.deleteAttendanceRows, StdDb.get_student, hconn, hr, hnochild]
  refine ⟨?_, ?_, ?_, ?_, ?_, ?_⟩
  · intro hchild
    obtain ⟨a, ha⟩ := Option.isSome_iff_exists.mp hchild
    simp [StdDb.deleteStudentRow, ha]
  · simp [hdel]
  · simp [hdel]
  · simp [hdel]
  · rw [hdel]
    simp only [Api.list_attendance_for_student, StdDb.list_attendance_by_student, hconn]
    have : ((db.attendance.filter (fun a => !(a.student_id == sid))).filter
        (fun a => a.student_id == sid)) = [] := by
      rw [List.filter_eq_nil_iff]
      intro a ha
      simp only [List.mem_filter, Bool.not_eq_true'] at ha
      simp [ha.2]
    simp [this]
  · intro d
    rw [hdel]
    simp only [StdDb.get_attendance, hconn]
    have : ((db.attendance.filter (fun a => !(a.student_id == sid))).find?
        (StdDb.attMatch sid d)) = none := by
      rw [List.find?_eq_none]
      intro x hx
      simp only [List.mem_filter, Bool.not_eq_true'] at hx
      simp [StdDb.attMatch, hx.2]
    simp [this]

/-- C2 witness: deleting student 1, which has records on 2024-01-10 and
2024-01-11, answers 200, empties its attendance, removes the student
row, lists nothing for id 1 and finds nothing for (1, 2024-01-10); the
reversed statement order would have hit the foreign-key error. -/
theorem delete_student_cascades_witness :
    (⟨true, [⟨1, "Ann", "5A"⟩],
        [⟨1, ⟨2024, 1, 10⟩, "Present"⟩, ⟨1, ⟨2024, 1, 11⟩, "Absent"⟩]⟩ : StdDb.DB).connected
      = true
    ∧ (⟨true, [⟨1, "Ann", "5A"⟩],
        [⟨1, ⟨2024, 1, 10⟩, "Present"⟩, ⟨1, ⟨2024, 1, 11⟩, "Absent"⟩]⟩ : StdDb.DB).students.find?
        (StdDb.studentMatch 1) = some ⟨1, "Ann", "5A"⟩
    ∧ StdDb.deleteStudentRow
        ⟨true, [⟨1, "Ann", "5A"⟩],
          [⟨1, ⟨2024, 1, 10⟩, "Present"⟩, ⟨1, ⟨2024, 1, 11⟩, "Absent"⟩]⟩ 1 =
        .error .fkViolation
    ∧ (Api.delete_student
        ⟨true, [⟨1, "Ann", "5A"⟩],
          [⟨1, ⟨2024, 1, 10⟩, "Present"⟩, ⟨1, ⟨2024, 1, 11⟩, "Absent"⟩]⟩ 1).1 = 200
    ∧ (Api.delete_student
        ⟨true, [⟨1, "Ann", "5A"⟩],
          [⟨1, ⟨2024, 1, 10⟩, "Present"⟩, ⟨1, ⟨2024, 1, 11⟩, "Absent"⟩]⟩ 1).2.attendance = []
    ∧ (Api.delete_student
        ⟨true, [⟨1, "Ann", "5A"⟩],
          [⟨1, ⟨2024, 1, 10⟩, "Present"⟩, ⟨1, ⟨2024, 1, 11⟩, "Absent"⟩]⟩ 1).2.students = []
    ∧ Api.list_attendance_for_student
        (Api.delete_student
          ⟨true, [⟨1, "Ann", "5A"⟩],
            [⟨1, ⟨2024, 1, 10⟩, "Present"⟩, ⟨1, ⟨2024, 1, 11⟩, "Absent"⟩]⟩ 1).2 1 = (200, [])
    ∧ StdDb.get_attendance
        (Api.delete_student
          ⟨true, [⟨1, "Ann", "5A"⟩],
            [⟨1, ⟨2024, 1, 10⟩, "Present"⟩, ⟨1, ⟨2024, 1, 11⟩, "Absent"⟩]⟩ 1).2 1
        ⟨2024, 1, 10⟩ = .ok none :=
  ⟨rfl, rfl,
    (delete_student_cascades
      ⟨true, [⟨1, "Ann", "5A"⟩],
        [⟨1, ⟨2024, 1, 10⟩, "Present"⟩, ⟨1, ⟨2024, 1, 11⟩, "Absent"⟩]⟩ 1
      ⟨1, "Ann", "5A"⟩ rfl rfl).1 rfl,
    (delete_student_cascades
      ⟨true, [⟨1, "Ann", "5A"⟩],
        [⟨1, ⟨2024, 1, 10⟩, "Present"⟩, ⟨1, ⟨2024, 1, 11⟩, "Absent"⟩]⟩ 1
      ⟨1, "Ann", "5A"⟩ rfl rfl).2.1,
    by decide, by decide,
    (delete_student_cascades
      ⟨true, [⟨1, "Ann", "5A"⟩],
        [⟨1, ⟨2024, 1, 10⟩, "Present"⟩, ⟨1, ⟨2024, 1, 11⟩, "Absent"⟩]⟩ 1
      ⟨1, "Ann", "5A"⟩ rfl rfl).2.2.2.2.1,
    (delete_student_cascades
      ⟨true, [⟨1, "Ann", "5A"⟩],
        [⟨1, ⟨2024, 1, 10⟩, "Present"⟩, ⟨1, ⟨2024, 1, 11⟩, "Absent"⟩]⟩ 1
      ⟨1, "Ann", "5A"⟩ rfl rfl).2.2.2.2.2 ⟨2024, 1, 10⟩⟩

/-- C8 counterexample: the update handler checks record existence before
ever looking at the status, so updating a nonexistent record with the
invalid status "Late" answers 404, not the claimed InvalidInput/400. -/
theorem update_invalid_status_missing_record_404 :
    Api.update_attendance ⟨true, [⟨1, "Ann", "5A"⟩], []⟩ 1 "2024-01-10"
      (some ⟨some "Late"⟩) =
      ((404, none), ⟨true, [⟨1, "Ann", "5A"⟩], []⟩) := by decide

/-- C8 amended: for every status outside the enum, the mark handler
answers 400 for every store state and request, never writing the value
(it validates the status itself); the update handler answers 400 with the
store unchanged whenever a record exists for the pair — through the
store's ENUM rejection, not a handler-side validation — while on a
missing record it answers 404 before the status is examined; in no case
is the invalid value written. -/
theorem invalid_status_never_stored (st : String)
    (h1 : st ≠ "Present") (h2 : st ≠ "Absent") :
    (∀ (db : StdDb.DB) (sid : Int) (ds : String),
        Api.mark_attendance db (some ⟨some sid, some ds, some st⟩) = ((400, none), db))
    ∧ (∀ (db : StdDb.DB) (sid : Int) (ds : String) (d : DateT) (row : StdDb.AttRow),
        parseDate ds = some d → db.connected = true →
        db.attendance.find? (StdDb.attMatch sid d) = some row →
        Api.update_attendance db sid ds (some ⟨some st⟩) = ((400, none), db)) := by
  constructor
  · intro db sid ds
    cases hparse : parseDate ds with
    | none => simp [Api.mark_attendance, hparse]
    | some d => simp [Api.mark_attendance, hparse, h1, h2]
  · intro db sid ds d row hds hconn hrow
    simp [Api.update_attendance, StdDb.get_attendance, StdDb.update_attendance,
      hds, hconn, hrow, h1, h2]

/-- C8 amended witness: with "Late", marking on an empty store answers
400 without a write, and updating the existing record (1, 2024-01-10)
answers 400 leaving its status Present. -/
theorem invalid_status_never_stored_witness :
    ("Late" ≠ "Present" ∧ "Late" ≠ "Absent")
    ∧ Api.mark_attendance ⟨true, [⟨1, "Ann", "5A"⟩], []⟩
        (some ⟨some 1, some "2024-01-10", some "Late"⟩) =
        ((400, none), ⟨true, [⟨1, "Ann", "5A"⟩], []⟩)
    ∧ parseDate "2024-01-10" = some ⟨2024, 1, 10⟩
    ∧ (⟨true, [⟨1, "Ann", "5A"⟩], [⟨1, ⟨2024, 1, 10⟩, "Present"⟩]⟩ : StdDb.DB).attendance.find?
        (StdDb.attMatch 1 ⟨2024, 1, 10⟩) = some ⟨1, ⟨2024, 1, 10⟩, "Present"⟩
    ∧ Api.update_attendance ⟨true, [⟨1, "Ann", "5A"⟩], [⟨1, ⟨2024, 1, 10⟩, "Present"⟩]⟩
        1 "2024-01-10" (some ⟨some "Late"⟩) =
        ((400, none), ⟨true, [⟨1, "Ann", "5A"⟩], [⟨1, ⟨2024, 1, 10⟩, "Present"⟩]⟩) :=
  ⟨⟨by decide, by decide⟩,
    (invalid_status_never_stored "Late" (by decide) (by decide)).1
      ⟨true, [⟨1, "Ann", "5A"⟩], []⟩ 1 "2024-01-10",
    by decide, rfl,
    (invalid_status_never_stored "Late" (by decide) (by decide)).2
      ⟨true, [⟨1, "Ann", "5A"⟩], [⟨1, ⟨2024, 1, 10⟩, "Present"⟩]⟩ 1 "2024-01-10"
      ⟨2024, 1, 10⟩ ⟨1, ⟨2024, 1, 10⟩, "Present"⟩ (by decide) rfl rfl⟩

/-- C9 counterexample: updating existing student 1 while supplying only
the name sends the omitted class to the store as NULL; the NOT NULL
column rejects it, so the request answers 400 — the update does not
succeed with the class left unchanged as claimed. -/
theorem update_partial_field_fails :
    Api.update_student ⟨true, [⟨1, "Ann", "5A"⟩], []⟩ 1 (some ⟨some "Bob", none⟩) =
      ((400, none), ⟨true, [⟨1, "Ann", "5A"⟩], []⟩) := by decide

/-- C9 amended: for an absent id the update handler answers 404 with the
store unchanged; for an existing id it performs a full overwrite, so it
succeeds (200, echoing the new name and class) exactly when both fields
are supplied, while a request omitting either field is rejected by the
store's NOT NULL column and answers 400 with the row unchanged. -/
theorem update_student_full_overwrite (db : StdDb.DB) (sid : Int)
    (hconn : db.connected = true) :
    (∀ body : Option Api.UpdateStudentReq,
        db.students.find? (StdDb.studentMatch sid) = none →
        Api.update_student db sid body = ((404, none), db))
    ∧ (∀ (r : StdDb.StudentRow) (nm cl : String),
        db.students.find? (StdDb.studentMatch sid) = some r →
        Api.update_student db sid (some ⟨some nm, some cl⟩) =
          ((200, some (sid, nm, cl)),
            { db with students := db.students.map (fun s =>
                if StdDb.studentMatch sid s then { s with name := nm, sclass := cl }
                else s) }))
    ∧ (∀ (r : StdDb.StudentRow) (b : Api.UpdateStudentReq),
        db.students.find? (StdDb.studentMatch sid) = some r →
        (b.name = none ∨ b.sclass = none) →
        Api.update_student db sid (some b) = ((400, none), db)) := by
  refine ⟨fun body habs => ?_, fun r nm cl hr => ?_, fun r b hr hb => ?_⟩
  · cases body <;> simp [Api.update_student, StdDb.get_student, hconn, habs]
  · have hpr : StdDb.studentMatch sid r = true := List.find?_some hr
    have hid : r.id = sid := by
      simpa [StdDb.studentMatch] using hpr
    have hmap :
        ((db.students.map (fun s =>
            if StdDb.studentMatch sid s then { s with name := nm, sclass := cl }
            else s)).find? (StdDb.studentMatch sid))
          = some { r with name := nm, sclass := cl } := by
      rw [List.find?_map]
      have hcomp :
          (StdDb.studentMatch sid ∘ fun s : StdDb.StudentRow =>
            if StdDb.studentMatch sid s then { s with name := nm, sclass := cl }
            else s) = StdDb.studentMatch sid := by
        funext s
        by_cases h : s.id = sid <;> simp [StdDb.studentMatch, h]
      rw [hcomp, hr]
      simp [hpr]
    simp [Api.update_student, StdDb.get_student, StdDb.update_student,
      hconn, hr, hmap, hid]
  · obtain ⟨hn⟩ | ⟨hc⟩ := hb <;>
      cases b <;>
      simp_all [Api.update_student, StdDb.get_student, StdDb.update_student, hconn, hr]

/-- C9 amended witness: on store holding (1, "Ann", "5A"): updating
absent id 2 answers 404; updating id 1 with both fields overwrites to
("Bob", "6B") with 200; updating id 1 with only the name answers 400 and
changes nothing. -/
theorem update_student_full_overwrite_witness :
    (⟨true, [⟨1, "Ann", "5A"⟩], []⟩ : StdDb.DB).connected = true
    ∧ (⟨true, [⟨1, "Ann", "5A"⟩], []⟩ : StdDb.DB).students.find?
        (StdDb.studentMatch 2) = none
    ∧ Api.update_student ⟨true, [⟨1, "Ann", "5A"⟩], []⟩ 2 (some ⟨some "Bob", some "6B"⟩) =
        ((404, none), ⟨true, [⟨1, "Ann", "5A"⟩], []⟩)
    ∧ (⟨true, [⟨1, "Ann", "5A"⟩], []⟩ : StdDb.DB).students.find?
        (StdDb.studentMatch 1) = some ⟨1, "Ann", "5A"⟩
    ∧ Api.update_student ⟨true, [⟨1, "Ann", "5A"⟩], []⟩ 1 (some ⟨some "Bob", some "6B"⟩) =
        ((200, some (1, "Bob", "6B")), ⟨true, [⟨1, "Bob", "6B"⟩], []⟩)
    ∧ Api.update_student ⟨true, [⟨1, "Ann", "5A"⟩], []⟩ 1 (some ⟨some "Bob", none⟩) =
        ((400, none), ⟨true, [⟨1, "Ann", "5A"⟩], []⟩) :=
  ⟨rfl, rfl,
    (update_student_full_overwrite ⟨true, [⟨1, "Ann", "5A"⟩], []⟩ 2 rfl).1
      (some ⟨some "Bob", some "6B"⟩) rfl,
    rfl,
    by decide,
    (update_student_full_overwrite ⟨true, [⟨1, "Ann", "5A"⟩], []⟩ 1 rfl).2.2
      ⟨1, "Ann", "5A"⟩ ⟨some "Bob", none⟩ rfl (Or.inr rfl)⟩
